import Mathlib

/-!
# movies-watchlist: the request handlers of `server/server.js`

A shallow embedding of the Express routes of `server/server.js` and the
properties the specification states about them.

* JSON data, as it travels and as the store keeps it, is the inductive
  `Json`. A value the server holds in memory is a `JsValue`: JSON data
  together with the infinite numbers, which `JSON.parse` yields for a number
  literal beyond the range of a double and `JSON.stringify` writes as `null`,
  and the negative zero, which `JSON.stringify` writes as `0`.
  A property read `o.k` yields an `Option`, where `none` is JavaScript's
  `undefined`.
* A watchlist handler is a pure function from the request to an `Action`:
  either a response, or one call on the document store together with the
  continuation that turns the result of that call into the response
  (`await` followed by the rest of the `try` block, or the `catch` block).
* The movie and search handlers take the replies of the outbound requests as
  arguments and return the response together with the outbound requests made.
-/

namespace MoviesWatchlist

/-! ## JSON values and JavaScript objects -/

/-- A JSON value, as it is sent and stored. A number is its decimal literal
`m * 10 ^ e`. -/
inductive Json where
  | null
  | bool (b : Bool)
  | num (m : Int) (e : Int)
  | str (s : String)
  | arr (items : List Json)
  | obj (fields : List (String × Json))

/-- A value the server holds in memory after `JSON.parse`. Numbers are IEEE
doubles: `num m e` is the finite double, other than the negative zero, that
`JSON.stringify` writes as the literal `m * 10 ^ e` (a literal that no double
holds exactly, such as `9007199254740993`, has been rounded by `JSON.parse`
to the nearest double); `negZero` is the negative zero, which `JSON.parse`
yields for `-0`; and `infinity` is `Infinity` or `-Infinity`, which
`JSON.parse` yields for a literal beyond the range of a double, such as
`1e400`. `NaN` does not arise from `JSON.parse`. -/
inductive JsValue where
  | null
  | bool (b : Bool)
  | num (m : Int) (e : Int)
  | negZero
  | infinity (negative : Bool)
  | str (s : String)
  | arr (items : List JsValue)
  | obj (fields : List (String × JsValue))

mutual
/-- What `JSON.stringify` writes for a value: a number that is not finite is
written `null`, the negative zero is written `0`, everything else as it
is. -/
def JsValue.toJson : JsValue → Json
  | .null => .null
  | .bool b => .bool b
  | .num m e => .num m e
  | .negZero => .num 0 0
  | .infinity _ => .null
  | .str s => .str s
  | .arr items => .arr (toJsonList items)
  | .obj fields => .obj (toJsonFields fields)
/-- The elements of an array as `JSON.stringify` writes them. -/
def toJsonList : List JsValue → List Json
  | [] => []
  | v :: vs => v.toJson :: toJsonList vs
/-- The properties of an object as `JSON.stringify` writes them. -/
def toJsonFields : List (String × JsValue) → List (String × Json)
  | [] => []
  | (k, v) :: kvs => (k, v.toJson) :: toJsonFields kvs
end

mutual
/-- The value in memory that `JSON.stringify` writes as the given JSON data:
it holds the same strings, booleans and numbers. Every value in memory that
holds neither an infinite number nor the negative zero is of this form. -/
def JsValue.ofJson : Json → JsValue
  | .null => .null
  | .bool b => .bool b
  | .num m e => .num m e
  | .str s => .str s
  | .arr items => .arr (ofJsonList items)
  | .obj fields => .obj (ofJsonFields fields)
/-- The array elements in memory that are given JSON data. -/
def ofJsonList : List Json → List JsValue
  | [] => []
  | v :: vs => JsValue.ofJson v :: ofJsonList vs
/-- The object properties in memory that are given JSON data. -/
def ofJsonFields : List (String × Json) → List (String × JsValue)
  | [] => []
  | (k, v) :: kvs => (k, JsValue.ofJson v) :: ofJsonFields kvs
end

/-- A JavaScript object literal: property names with values that may be
`undefined` (`none`). -/
abbrev JsObject := List (String × Option JsValue)

/-- Property read `o[k]` on the fields of a JSON object; `none` is
`undefined`. The first binding of a key is the visible one. -/
def getField (fields : List (String × Json)) (k : String) : Option Json :=
  fields.lookup k

/-- Property read `v.k` on a JSON value that is an object; every other value
has no own property named by the keys read in this program. -/
def Json.getProp : Json → String → Option Json
  | .obj fields, k => getField fields k
  | _, _ => none

/-- What `JSON.stringify` writes for an object literal: the properties whose
value is not `undefined`, in order, each value as `JSON.stringify` writes
it. -/
def serialize (o : JsObject) : List (String × Json) :=
  o.filterMap (fun kv => kv.2.map (fun v => (kv.1, v.toJson)))

/-! ## Requests and responses -/

/-- The identity that passport stores in `req.user`; `sub` is the subject id. -/
structure User where
  sub : String
  name : String

/-- The body `express.json()` hands to a handler, that is `req.body` after
`JSON.parse`: in its (default) strict mode only a JSON object or a JSON array
is accepted. Its values are values in memory, so a property can hold
`Infinity`. -/
inductive Body where
  | object (fields : List (String × JsValue))
  | array (items : List JsValue)

/-- Property read `movie.k` on the request body, for the keys read by the
POST handler (none of them is an index or `length`, so an array has none).
The first binding of a key is the visible one. -/
def Body.get : Body → String → Option JsValue
  | .object fields, k => fields.lookup k
  | .array _, _ => none

/-- The part of an Express request the watchlist handlers read. -/
structure Request where
  user : Option User
  docId : String
  revId : String
  body : Body

/-- Passport's `req.isAuthenticated()`: whether `req.user` is set. -/
def Request.isAuthenticated (req : Request) : Bool :=
  req.user.isSome

/-- An HTTP response: status code and JSON body. -/
structure Response where
  status : Nat
  body : Json

/-- The response of `res.json(v)`: status 200. -/
def Response.json (v : Json) : Response :=
  { status := 200, body := v }

/-- The response of `res.status(code).json(v)` with `v` an error object. -/
def Response.fail (code : Nat) (msg : String) : Response :=
  { status := code, body := .obj [("error", .str msg)] }

/-! ## The store calls a handler can make -/

/-- The result of `cloudant.postDocument`: `response.result.id`. -/
structure PostResult where
  id : String

/-- What a watchlist handler does: respond at once, or make one call on the
store and continue with its outcome (`Except.error` is a rejected promise). -/
inductive Action where
  | respond (r : Response)
  | postFind (userId : String) (k : Except String (List Json) → Response)
  | deleteDocument (docId : String) (rev : String) (k : Except String Unit → Response)
  | postDocument (document : JsObject) (k : Except String PostResult → Response)

/-- The handler `app.get('/api/watchlist')`; the selector of the query is
`userId: req.user.sub`. -/
def getWatchlist (req : Request) : Action :=
  match req.user with
  | none => .respond (Response.fail 401 "Unauthorized")
  | some user =>
    .postFind user.sub (fun response =>
      match response with
      | .ok docs => Response.json (.arr docs)
      | .error _ => Response.fail 500 "Failed to fetch watchlist")

/-- The handler `app.delete('/api/watchlist/:docId/:revId')`. -/
def deleteWatchlist (req : Request) : Action :=
  match req.user with
  | none => .respond (Response.fail 401 "Unauthorized")
  | some _ =>
    .deleteDocument req.docId req.revId (fun response =>
      match response with
      | .ok _ => Response.json (.obj [("success", .bool true)])
      | .error _ => Response.fail 500 "Failed to delete")

/-- The object `movieDoc` built by the POST handler; `now` is
`new Date().toISOString()`. -/
def movieDoc (user : User) (movie : Body) (now : String) : JsObject :=
  [ ("userId", some (.str user.sub)),
    ("movieId", movie.get "id"),
    ("title", movie.get "title"),
    ("poster_path", movie.get "poster_path"),
    ("release_date", movie.get "release_date"),
    ("overview", movie.get "overview"),
    ("tagline", movie.get "tagline"),
    ("genres", movie.get "genres"),
    ("director", movie.get "director"),
    ("actors", movie.get "actors"),
    ("vote_average", movie.get "vote_average"),
    ("addedAt", some (.str now)) ]

/-- The handler `app.post('/api/watchlist')`; `now` is the server clock read
by `new Date().toISOString()`. -/
def postWatchlist (now : String) (req : Request) : Action :=
  match req.user with
  | none => .respond (Response.fail 401 "User not logged in")
  | some user =>
    .postDocument (movieDoc user req.body now) (fun response =>
      match response with
      | .ok result => Response.json (.obj [("success", .bool true), ("id", .str result.id)])
      | .error _ => Response.fail 500 "Failed to save movie")

/-! ## The document store -/

/-- A document as the store holds it: the store-assigned document id and
revision token, and the JSON fields that were posted. -/
structure StoredDoc where
  id : String
  rev : String
  fields : List (String × Json)

/-- The document as a query returns it: the posted fields together with
`_id` and `_rev`. -/
def StoredDoc.toJson (d : StoredDoc) : Json :=
  .obj (("_id", .str d.id) :: ("_rev", .str d.rev) :: d.fields)

/-- Whether the owner field `userId` of a stored document is the string
`userId`: the selector of the watchlist query. -/
def StoredDoc.ownedBy (d : StoredDoc) (userId : String) : Bool :=
  match getField d.fields "userId" with
  | some (.str u) => u == userId
  | _ => false

/-- The state of the store: the documents of the `watchlist` database. -/
abbrev Store := List StoredDoc

/-- What the surroundings decide for one store call: whether the store can be
reached, and the id and revision token it would assign to a new document. -/
structure StoreEnv where
  reachable : Bool
  newId : String
  newRev : String

/-- Modelled from the spec: the store's `list` operation (`postFind` of the
external Cloudant client, whose code is not part of the sources). It returns
the Watchlist Entries filtered by owner, and fails when the store cannot be
reached. -/
def Store.postFind (env : StoreEnv) (s : Store) (userId : String) :
    Except String (List Json) :=
  if env.reachable then
    .ok ((s.filter (fun d => d.ownedBy userId)).map StoredDoc.toJson)
  else
    .error "unreachable"

/-- Modelled from the spec: the store's `delete` operation (`deleteDocument`
of the external Cloudant client). It fails with not-found when no document
has the id, with a revision conflict when the supplied token is not the
stored document's current token, and removes the document otherwise. -/
def Store.deleteDocument (env : StoreEnv) (s : Store) (docId rev : String) :
    Except String Store :=
  if env.reachable then
    match s.find? (fun d => d.id == docId) with
    | none => .error "not_found"
    | some d =>
      if d.rev == rev then .ok (s.eraseP (fun d => d.id == docId))
      else .error "conflict"
  else
    .error "unreachable"

/-- Modelled from the spec: the store's `create` operation (`postDocument` of
the external Cloudant client). It stores the JSON form of the document under
a store-assigned id and revision token and returns the generated id. -/
def Store.postDocument (env : StoreEnv) (s : Store) (document : JsObject) :
    Except String (PostResult × Store) :=
  if env.reachable then
    .ok ({ id := env.newId },
      s ++ [{ id := env.newId, rev := env.newRev, fields := serialize document }])
  else
    .error "unreachable"

/-- Carry out a handler's action on the store: the response sent and the
state of the store afterwards. -/
def run (env : StoreEnv) (a : Action) (s : Store) : Response × Store :=
  match a with
  | .respond r => (r, s)
  | .postFind userId k => (k (Store.postFind env s userId), s)
  | .deleteDocument docId rev k =>
    match Store.deleteDocument env s docId rev with
    | .ok s' => (k (.ok ()), s')
    | .error e => (k (.error e), s)
  | .postDocument document k =>
    match Store.postDocument env s document with
    | .ok (result, s') => (k (.ok result), s')
    | .error e => (k (.error e), s)

/-- Whether a returned entry has the document id `id`. -/
def hasId (id : String) (entry : Json) : Bool :=
  match entry.getProp "_id" with
  | some (.str i) => i == id
  | _ => false

/-! ## The catalog routes -/

/-- One record of the `Answer` list of the DNS-over-HTTPS reply. -/
structure DnsRecord where
  type : Nat
  data : String

/-- The body `dnsRes.data` of the DNS-over-HTTPS reply; `Answer` is absent
(`none`) when the name has no answer. -/
structure DnsData where
  Answer : Option (List DnsRecord)

/-- The request configuration `getSafeTMDBConfig` returns. -/
structure RequestConfig where
  url : String
  host : String
  authorization : String
  accept : String
  params : List (String × Json)

/-- The function `getSafeTMDBConfig`, given the reply `dnsRes` to its DNS
lookup (`Except.error` is a rejected promise). Reading `.data` of the record
that `find` did not find throws, as does `find` on an absent `Answer`. -/
def getSafeTMDBConfig (apiKey : String) (dnsRes : Except String DnsData)
    (endpoint : String) (params : List (String × Json)) : Except String RequestConfig :=
  match dnsRes with
  | .error err => .error err
  | .ok dnsData =>
    match dnsData.Answer with
    | none => .error "TypeError"
    | some answer =>
      match answer.find? (fun record => record.type == 1) with
      | none => .error "TypeError"
      | some record =>
        .ok { url := "https://" ++ record.data ++ "/3" ++ endpoint,
              host := "api.themoviedb.org",
              authorization := "Bearer " ++ apiKey,
              accept := "application/json",
              params := params }

/-- A genre of the catalog's details reply. -/
structure Genre where
  name : String

/-- The catalog's details reply `detailsRes.data`, as far as the handler
reads it. The fields that are only copied are values in memory or
`undefined`; `tagline` is `none` when absent or `null`. -/
structure Details where
  id : Option JsValue
  title : Option JsValue
  poster_path : Option JsValue
  backdrop_path : Option JsValue
  release_date : Option JsValue
  tagline : Option String
  overview : Option JsValue
  genres : List Genre
  vote_average : Option JsValue

/-- A crew entry of the catalog's credits reply. -/
structure Person where
  job : String
  name : String

/-- A cast entry of the catalog's credits reply. -/
structure Actor where
  name : String

/-- The catalog's credits reply `creditsRes.data`. -/
structure Credits where
  crew : List Person
  cast : List Actor

/-- The catalog's search reply `response.data`. -/
structure SearchData where
  results : List Json

/-- The replies of the outside world to the outbound requests of one route:
the configured API key, the reply to the n-th DNS lookup, and the catalog's
reply to a GET with a given configuration, per endpoint. -/
structure Upstream where
  apiKey : String
  dns : Nat → Except String DnsData
  details : RequestConfig → Except String Details
  credits : RequestConfig → Except String Credits
  search : RequestConfig → Except String SearchData

/-- An outbound request: the DNS lookup, or a GET on the catalog. -/
inductive Outbound where
  | dns
  | catalog (config : RequestConfig)

/-- What a catalog route does: the response and the outbound requests made,
in order. -/
structure Outcome where
  response : Response
  requests : List Outbound

/-- The constant `directorName` of the movie handler. -/
def directorName (credits : Credits) : String :=
  match credits.crew.find? (fun person => person.job == "Director") with
  | some directorObj => directorObj.name
  | none => "Unknown"

/-- The constant `topCast` of the movie handler. -/
def topCast (credits : Credits) : List String :=
  (credits.cast.take 5).map (fun actor => actor.name)

/-- The constant `genres` of the movie handler. -/
def genres (details : Details) : List String :=
  details.genres.map (fun g => g.name)

/-- The `tagline` property of `richMovieData`; the empty string is falsy.
`toUpperCase` is the host's `String.prototype.toUpperCase`. -/
def tagline (toUpperCase : String → String) (details : Details) : String :=
  match details.tagline with
  | some t => if t = "" then "" else toUpperCase t
  | none => ""

/-- The object `richMovieData` of the movie handler. -/
def richMovieData (toUpperCase : String → String) (details : Details)
    (credits : Credits) : JsObject :=
  [ ("id", details.id),
    ("title", details.title),
    ("poster_path", details.poster_path),
    ("backdrop_path", details.backdrop_path),
    ("release_date", details.release_date),
    ("tagline", some (.str (tagline toUpperCase details))),
    ("overview", details.overview),
    ("genres", some (.arr ((genres details).map JsValue.str))),
    ("director", some (.str (directorName credits))),
    ("actors", some (.arr ((topCast credits).map JsValue.str))),
    ("vote_average", details.vote_average) ]

/-- The handler `app.get('/api/movie/:id')`. Both catalog requests are
issued before `Promise.all` awaits them. -/
def movieRoute (toUpperCase : String → String) (up : Upstream) (movieId : String) :
    Outcome :=
  let failed := Response.fail 500 "Failed to get movie details"
  match getSafeTMDBConfig up.apiKey (up.dns 0) ("/movie/" ++ movieId)
      [("language", .str "en-US")] with
  | .error _ => { response := failed, requests := [.dns] }
  | .ok detailsConfig =>
    match getSafeTMDBConfig up.apiKey (up.dns 1) ("/movie/" ++ movieId ++ "/credits")
        [("language", .str "en-US")] with
    | .error _ => { response := failed, requests := [.dns, .dns] }
    | .ok creditsConfig =>
      let requests := [.dns, .dns, .catalog detailsConfig, .catalog creditsConfig]
      match up.details detailsConfig, up.credits creditsConfig with
      | .ok details, .ok credits =>
        { response := Response.json (.obj (serialize (richMovieData toUpperCase details credits))),
          requests := requests }
      | _, _ => { response := failed, requests := requests }

/-- The handler `app.get('/api/search')`; `q` is `req.query.q`, and `!query`
holds when it is absent or empty. -/
def searchRoute (up : Upstream) (q : Option String) : Outcome :=
  match q with
  | none => { response := Response.fail 400 "Query required", requests := [] }
  | some query =>
    if query = "" then
      { response := Response.fail 400 "Query required", requests := [] }
    else
      let failed := Response.fail 500 "Failed to fetch movies"
      match getSafeTMDBConfig up.apiKey (up.dns 0) "/search/movie"
          [("query", .str query), ("include_adult", .bool false),
           ("language", .str "en-US"), ("page", .num 1 0)] with
      | .error _ => { response := failed, requests := [.dns] }
      | .ok config =>
        match up.search config with
        | .ok data => { response := Response.json (.arr data.results),
                        requests := [.dns, .catalog config] }
        | .error _ => { response := failed, requests := [.dns, .catalog config] }

/-! ## Example data -/

/-- A store environment in which the store is reachable. -/
def envUp : StoreEnv :=
  { reachable := true, newId := "doc2", newRev := "1-new" }

/-- A store holding one document, owned by subject `bob`. -/
def bobStore : Store :=
  [{ id := "doc1", rev := "1-abc",
     fields := [("userId", .str "bob"), ("movieId", .num 27205 0),
                ("title", .str "Inception")] }]

/-- A request without a session that names bob's document. -/
def anonymousRequest : Request :=
  { user := none, docId := "doc1", revId := "1-abc", body := .object [] }

/-- A request of subject `alice` that names bob's document and its current
revision token; its body is a movie. -/
def aliceRequest : Request :=
  { user := some { sub := "alice", name := "Alice" },
    docId := "doc1", revId := "1-abc",
    body := .object [("id", .num 603 0), ("title", .str "The Matrix"),
                     ("userId", .str "bob"), ("_id", .str "doc1")] }

/-- A request of subject `alice` whose body is what `express.json()` makes
of the JSON text with `"vote_average": 1e400`: the property holds
`Infinity`. -/
def infinityRequest : Request :=
  { user := some { sub := "alice", name := "Alice" },
    docId := "", revId := "",
    body := .object [("id", .num 603 0), ("title", .str "The Matrix"),
                     ("vote_average", .infinity false)] }

/-- A request of subject `bob` that names his document with a revision token
that is not the current one. -/
def staleRequest : Request :=
  { user := some { sub := "bob", name := "Bob" },
    docId := "doc1", revId := "1-old", body := .object [] }

/-- A DNS reply whose second record is the address record. -/
def dnsOk : Except String DnsData :=
  .ok { Answer := some [{ type := 5, data := "cname.example" },
                        { type := 1, data := "13.0.0.1" }] }

/-- A details reply for the movie 27205. -/
def inceptionDetails : Details :=
  { id := some (.num 27205 0),
    title := some (.str "Inception"),
    poster_path := some (.str "/poster.jpg"),
    backdrop_path := some .null,
    release_date := some (.str "2010-07-15"),
    tagline := some "Your mind is the scene of the crime.",
    overview := some (.str "A thief who steals secrets."),
    genres := [{ name := "Action" }, { name := "Science Fiction" }],
    vote_average := some (.num 84 (-1)) }

/-- A credits reply with two directors after a producer, and six cast
entries. -/
def inceptionCredits : Credits :=
  { crew := [{ job := "Producer", name := "Emma Thomas" },
             { job := "Director", name := "Christopher Nolan" },
             { job := "Director", name := "Second Unit" }],
    cast := [{ name := "Leonardo DiCaprio" }, { name := "Joseph Gordon-Levitt" },
             { name := "Ken Watanabe" }, { name := "Tom Hardy" },
             { name := "Elliot Page" }, { name := "Dileep Rao" }] }

/-- A credits reply whose only crew entry is a director with the name
`Unknown`. -/
def unknownCredits : Credits :=
  { crew := [{ job := "Director", name := "Unknown" }], cast := [] }

/-- An outside world in which every lookup and every catalog request
succeeds, with the given credits reply. -/
def upstreamWith (credits : Credits) : Upstream :=
  { apiKey := "key",
    dns := fun _ => dnsOk,
    details := fun _ => .ok inceptionDetails,
    credits := fun _ => .ok credits,
    search := fun _ => .ok { results := [] } }

/-- The request configuration of the details request in the example world. -/
def detailsConfig : RequestConfig :=
  { url := "https://13.0.0.1/3/movie/27205",
    host := "api.themoviedb.org",
    authorization := "Bearer key",
    accept := "application/json",
    params := [("language", .str "en-US")] }

/-- The request configuration of the credits request in the example world. -/
def creditsConfig : RequestConfig :=
  { url := "https://13.0.0.1/3/movie/27205/credits",
    host := "api.themoviedb.org",
    authorization := "Bearer key",
    accept := "application/json",
    params := [("language", .str "en-US")] }

/-- An outside world in which the credits request fails and everything else
succeeds. -/
def upstreamCreditsDown : Upstream :=
  { apiKey := "key",
    dns := fun _ => dnsOk,
    details := fun _ => .ok inceptionDetails,
    credits := fun _ => .error "timeout",
    search := fun _ => .ok { results := [] } }

/-- A details reply whose tagline is the empty string. -/
def emptyTaglineDetails : Details :=
  { id := some (.num 550 0),
    title := some (.str "Fight Club"),
    poster_path := some .null,
    backdrop_path := some .null,
    release_date := some (.str "1999-10-15"),
    tagline := some "",
    overview := some (.str "An insomniac office worker."),
    genres := [{ name := "Drama" }],
    vote_average := some (.num 84 (-1)) }

/-- An outside world in which every request succeeds, the details reply has
an empty tagline, and the search finds one movie. -/
def upstreamEmptyTagline : Upstream :=
  { apiKey := "key",
    dns := fun _ => dnsOk,
    details := fun _ => .ok emptyTaglineDetails,
    credits := fun _ => .ok inceptionCredits,
    search := fun _ => .ok { results := [.obj [("id", .num 550 0),
                                                ("title", .str "Fight Club")]] } }

/-! ## Helper lemmas -/

theorem serialize_cons_some (k : String) (v : JsValue) (o : JsObject) :
    serialize ((k, some v) :: o) = (k, v.toJson) :: serialize o := by
  simp [serialize]

theorem serialize_cons_none (k : String) (o : JsObject) :
    serialize ((k, none) :: o) = serialize o := by
  simp [serialize]

theorem getField_serialize_cons_ne (k' k : String) (v : Option JsValue) (o : JsObject)
    (h : (k == k') = false) :
    getField (serialize ((k', v) :: o)) k = getField (serialize o) k := by
  cases v with
  | none => rw [serialize_cons_none]
  | some x => rw [serialize_cons_some]; simp [getField, List.lookup, h]

theorem getField_serialize_cons_eq (k : String) (v : Option JsValue) (o : JsObject) :
    getField (serialize ((k, v) :: o)) k =
      match v with
      | some x => some x.toJson
      | none => getField (serialize o) k := by
  cases v with
  | none => rw [serialize_cons_none]
  | some x => rw [serialize_cons_some]; simp [getField, List.lookup]

theorem getField_serialize_nil (k : String) : getField (serialize []) k = none := by
  simp [serialize, getField]

mutual
theorem toJson_ofJson : ∀ j : Json, (JsValue.ofJson j).toJson = j
  | .null => rfl
  | .bool _ => rfl
  | .num _ _ => rfl
  | .str _ => rfl
  | .arr items => by simp only [JsValue.ofJson, JsValue.toJson, toJsonList_ofJsonList items]
  | .obj fields => by
    simp only [JsValue.ofJson, JsValue.toJson, toJsonFields_ofJsonFields fields]
theorem toJsonList_ofJsonList : ∀ l : List Json, toJsonList (ofJsonList l) = l
  | [] => rfl
  | v :: vs => by simp only [ofJsonList, toJsonList, toJson_ofJson v, toJsonList_ofJsonList vs]
theorem toJsonFields_ofJsonFields :
    ∀ l : List (String × Json), toJsonFields (ofJsonFields l) = l
  | [] => rfl
  | (k, v) :: kvs => by
    simp only [ofJsonFields, toJsonFields, toJson_ofJson v, toJsonFields_ofJsonFields kvs]
end

theorem toJsonList_str (names : List String) :
    toJsonList (names.map JsValue.str) = names.map Json.str := by
  induction names with
  | nil => rfl
  | cons n ns ih => simp only [List.map_cons, toJsonList, JsValue.toJson, ih]

/-! ## Watchlist routes: authentication -/

/-- C1: for each of the three watchlist routes, a request whose session is not
authenticated is answered at once with status 401: the handler makes no call
on the store, and the state of the store is unchanged. -/
theorem unauthenticated_401 (now : String) (req : Request)
    (h : req.isAuthenticated = false) :
    (∃ r, getWatchlist req = .respond r ∧ r.status = 401) ∧
    (∃ r, postWatchlist now req = .respond r ∧ r.status = 401) ∧
    (∃ r, deleteWatchlist req = .respond r ∧ r.status = 401) ∧
    ∀ (env : StoreEnv) (s : Store),
      (run env (getWatchlist req) s).1.status = 401 ∧
      (run env (getWatchlist req) s).2 = s ∧
      (run env (postWatchlist now req) s).1.status = 401 ∧
      (run env (postWatchlist now req) s).2 = s ∧
      (run env (deleteWatchlist req) s).1.status = 401 ∧
      (run env (deleteWatchlist req) s).2 = s := by
  have hu : req.user = none := by
    cases hreq : req.user with
    | none => rfl
    | some u => simp [Request.isAuthenticated, hreq] at h
  refine ⟨⟨Response.fail 401 "Unauthorized", by simp [getWatchlist, hu], rfl⟩,
    ⟨Response.fail 401 "User not logged in", by simp [postWatchlist, hu], rfl⟩,
    ⟨Response.fail 401 "Unauthorized", by simp [deleteWatchlist, hu], rfl⟩, ?_⟩
  intro env s
  simp [getWatchlist, postWatchlist, deleteWatchlist, hu, run, Response.fail]

/-- Witness for C1: an anonymous request on a store holding one of bob's
documents. -/
theorem unauthenticated_401_witness :
    anonymousRequest.isAuthenticated = false ∧
    (run envUp (deleteWatchlist anonymousRequest) bobStore).1.status = 401 ∧
    (run envUp (deleteWatchlist anonymousRequest) bobStore).2 = bobStore :=
  ⟨rfl,
   ((unauthenticated_401 "2024-01-01T00:00:00.000Z" anonymousRequest rfl).2.2.2
      envUp bobStore).2.2.2.2.1,
   ((unauthenticated_401 "2024-01-01T00:00:00.000Z" anonymousRequest rfl).2.2.2
      envUp bobStore).2.2.2.2.2⟩

/-! ## Watchlist routes: ownership -/

theorem ownedBy_iff (d : StoredDoc) (u : String) :
    d.ownedBy u = true ↔ getField d.fields "userId" = some (.str u) := by
  unfold StoredDoc.ownedBy
  split
  · next w h => simp [h]
  · next h =>
    constructor
    · intro hf; cases hf
    · intro hu; exact absurd hu (h u)

theorem getProp_toJson_userId (d : StoredDoc) :
    d.toJson.getProp "userId" = getField d.fields "userId" := by
  simp [StoredDoc.toJson, Json.getProp, getField, List.lookup]

theorem deleteWatchlist_ignores_subject (req req' : Request) (user user' : User)
    (h : req.user = some user) (h' : req'.user = some user')
    (hdoc : req'.docId = req.docId) (hrev : req'.revId = req.revId) :
    deleteWatchlist req' = deleteWatchlist req := by
  simp only [deleteWatchlist, h, h', hdoc, hrev]

/-- C2 (the code at the failing input): subject `alice`, authenticated, sends
DELETE with the document id and current revision token of the one stored
entry, whose owner is `bob`; the handler answers 200 with `success: true`
and the store no longer holds bob's entry. -/
theorem delete_removes_entry_of_other_owner :
    aliceRequest.isAuthenticated = true ∧
    (∀ d ∈ bobStore, d.ownedBy "bob" = true ∧ d.ownedBy "alice" = false) ∧
    (run envUp (deleteWatchlist aliceRequest) bobStore).1.status = 200 ∧
    (run envUp (deleteWatchlist aliceRequest) bobStore).1.body.getProp "success"
      = some (.bool true) ∧
    (run envUp (deleteWatchlist aliceRequest) bobStore).2 = [] := by
  refine ⟨rfl, ?_, rfl, rfl, rfl⟩
  intro d hd
  simp only [bobStore, List.mem_singleton] at hd
  subst hd
  exact ⟨rfl, rfl⟩

/-- C3: for every store state and every authenticated GET /api/watchlist by
subject A whose store query succeeds, the response is 200 with exactly the
stored entries whose `userId` is A's subject id, in store order; every
returned entry has `userId` equal to A's subject id, every stored entry of A
is returned, and the store is unchanged. -/
theorem list_returns_own_entries (env : StoreEnv) (s : Store) (req : Request)
    (user : User) (hauth : req.user = some user) (hup : env.reachable = true) :
    ∃ docs : List Json,
      run env (getWatchlist req) s = (Response.json (.arr docs), s) ∧
      docs = (s.filter (fun d => d.ownedBy user.sub)).map StoredDoc.toJson ∧
      (∀ e ∈ docs, e.getProp "userId" = some (.str user.sub)) ∧
      (∀ d ∈ s, getField d.fields "userId" = some (.str user.sub) → d.toJson ∈ docs) ∧
      (∀ d ∈ s, getField d.fields "userId" ≠ some (.str user.sub) → d.toJson ∉ docs) := by
  refine ⟨_, ?_, rfl, ?_, ?_, ?_⟩
  · simp [getWatchlist, hauth, run, Store.postFind, hup]
  · intro e he
    simp only [List.mem_map, List.mem_filter] at he
    obtain ⟨d, ⟨_, hd⟩, rfl⟩ := he
    rw [getProp_toJson_userId]
    exact (ownedBy_iff d user.sub).1 hd
  · intro d hd ho
    exact List.mem_map.2 ⟨d, List.mem_filter.2 ⟨hd, (ownedBy_iff d user.sub).2 ho⟩, rfl⟩
  · intro d _ ho hmem
    simp only [List.mem_map, List.mem_filter] at hmem
    obtain ⟨d', ⟨_, hd'⟩, heq⟩ := hmem
    apply ho
    rw [← getProp_toJson_userId, ← heq, getProp_toJson_userId]
    exact (ownedBy_iff d' user.sub).1 hd'

/-- Witness for C3: alice lists a store that holds only bob's entry. -/
theorem list_returns_own_entries_witness :
    aliceRequest.user = some { sub := "alice", name := "Alice" } ∧
    envUp.reachable = true ∧
    ∃ docs : List Json,
      run envUp (getWatchlist aliceRequest) bobStore = (Response.json (.arr docs), bobStore) ∧
      docs = (bobStore.filter (fun d => d.ownedBy "alice")).map StoredDoc.toJson ∧
      (∀ e ∈ docs, e.getProp "userId" = some (.str "alice")) ∧
      (∀ d ∈ bobStore, getField d.fields "userId" = some (.str "alice") → d.toJson ∈ docs) ∧
      (∀ d ∈ bobStore, getField d.fields "userId" ≠ some (.str "alice") → d.toJson ∉ docs) :=
  ⟨rfl, rfl,
    list_returns_own_entries envUp bobStore aliceRequest { sub := "alice", name := "Alice" }
      rfl rfl⟩

/-! ## Watchlist routes: creation -/

theorem movieDoc_reserved_fields (user : User) (movie : Body) (now : String) :
    getField (serialize (movieDoc user movie now)) "userId" = some (.str user.sub) ∧
    getField (serialize (movieDoc user movie now)) "addedAt" = some (.str now) ∧
    getField (serialize (movieDoc user movie now)) "_id" = none ∧
    getField (serialize (movieDoc user movie now)) "_rev" = none := by
  refine ⟨?_, ?_, ?_, ?_⟩
  · simp [movieDoc, getField_serialize_cons_eq, JsValue.toJson]
  · simp [movieDoc, getField_serialize_cons_ne, getField_serialize_cons_eq, JsValue.toJson]
  · simp [movieDoc, getField_serialize_cons_ne, getField_serialize_nil]
  · simp [movieDoc, getField_serialize_cons_ne, getField_serialize_nil]

theorem movieDoc_movie_fields (user : User) (movie : Body) (now : String) :
    getField (serialize (movieDoc user movie now)) "movieId"
      = (movie.get "id").map JsValue.toJson ∧
    getField (serialize (movieDoc user movie now)) "title"
      = (movie.get "title").map JsValue.toJson ∧
    getField (serialize (movieDoc user movie now)) "poster_path"
      = (movie.get "poster_path").map JsValue.toJson ∧
    getField (serialize (movieDoc user movie now)) "release_date"
      = (movie.get "release_date").map JsValue.toJson ∧
    getField (serialize (movieDoc user movie now)) "overview"
      = (movie.get "overview").map JsValue.toJson ∧
    getField (serialize (movieDoc user movie now)) "tagline"
      = (movie.get "tagline").map JsValue.toJson ∧
    getField (serialize (movieDoc user movie now)) "genres"
      = (movie.get "genres").map JsValue.toJson ∧
    getField (serialize (movieDoc user movie now)) "director"
      = (movie.get "director").map JsValue.toJson ∧
    getField (serialize (movieDoc user movie now)) "actors"
      = (movie.get "actors").map JsValue.toJson ∧
    getField (serialize (movieDoc user movie now)) "vote_average"
      = (movie.get "vote_average").map JsValue.toJson := by
  refine ⟨?_, ?_, ?_, ?_, ?_, ?_, ?_, ?_, ?_, ?_⟩
  · simp only [movieDoc, getField_serialize_cons_ne, getField_serialize_cons_eq,
      getField_serialize_nil, String.reduceBEq]
    cases movie.get "id" <;> rfl
  · simp only [movieDoc, getField_serialize_cons_ne, getField_serialize_cons_eq,
      getField_serialize_nil, String.reduceBEq]
    cases movie.get "title" <;> rfl
  · simp only [movieDoc, getField_serialize_cons_ne, getField_serialize_cons_eq,
      getField_serialize_nil, String.reduceBEq]
    cases movie.get "poster_path" <;> rfl
  · simp only [movieDoc, getField_serialize_cons_ne, getField_serialize_cons_eq,
      getField_serialize_nil, String.reduceBEq]
    cases movie.get "release_date" <;> rfl
  · simp only [movieDoc, getField_serialize_cons_ne, getField_serialize_cons_eq,
      getField_serialize_nil, String.reduceBEq]
    cases movie.get "overview" <;> rfl
  · simp only [movieDoc, getField_serialize_cons_ne, getField_serialize_cons_eq,
      getField_serialize_nil, String.reduceBEq]
    cases movie.get "tagline" <;> rfl
  · simp only [movieDoc, getField_serialize_cons_ne, getField_serialize_cons_eq,
      getField_serialize_nil, String.reduceBEq]
    cases movie.get "genres" <;> rfl
  · simp only [movieDoc, getField_serialize_cons_ne, getField_serialize_cons_eq,
      getField_serialize_nil, String.reduceBEq]
    cases movie.get "director" <;> rfl
  · simp only [movieDoc, getField_serialize_cons_ne, getField_serialize_cons_eq,
      getField_serialize_nil, String.reduceBEq]
    cases movie.get "actors" <;> rfl
  · simp only [movieDoc, getField_serialize_cons_ne, getField_serialize_cons_eq,
      getField_serialize_nil, String.reduceBEq]
    cases movie.get "vote_average" <;> rfl

/-- C4: for every authenticated POST /api/watchlist and every JSON body, the
handler hands the store one document whose properties are the twelve fixed
ones; as stored, its `userId` is the session's subject id, its `addedAt` is
the server's clock, and it has no `_id` and no `_rev`. The document depends
on the body only through the ten movie properties read: a body that agrees
on those (whatever `userId`, `addedAt`, `_id` or `_rev` it supplies) gives
the same store call. -/
theorem created_document_owner (now : String) (req : Request) (user : User)
    (hauth : req.user = some user) :
    ∃ (document : JsObject) (k : Except String PostResult → Response),
      postWatchlist now req = .postDocument document k ∧
      document.map Prod.fst =
        ["userId", "movieId", "title", "poster_path", "release_date", "overview",
         "tagline", "genres", "director", "actors", "vote_average", "addedAt"] ∧
      getField (serialize document) "userId" = some (.str user.sub) ∧
      getField (serialize document) "addedAt" = some (.str now) ∧
      getField (serialize document) "_id" = none ∧
      getField (serialize document) "_rev" = none ∧
      ∀ req' : Request, req'.user = some user →
        (∀ key ∈ ["id", "title", "poster_path", "release_date", "overview", "tagline",
                  "genres", "director", "actors", "vote_average"],
          req'.body.get key = req.body.get key) →
        postWatchlist now req' = postWatchlist now req := by
  obtain ⟨h1, h2, h3, h4⟩ := movieDoc_reserved_fields user req.body now
  have hk : ∃ k, postWatchlist now req = .postDocument (movieDoc user req.body now) k := by
    simp only [postWatchlist, hauth]
    exact ⟨_, rfl⟩
  obtain ⟨k, hk⟩ := hk
  refine ⟨movieDoc user req.body now, k, hk, rfl, h1, h2, h3, h4, ?_⟩
  · intro req' hauth' hbody
    have hdoc : movieDoc user req'.body now = movieDoc user req.body now := by
      simp only [movieDoc]
      rw [hbody "id" (by simp), hbody "title" (by simp), hbody "poster_path" (by simp),
        hbody "release_date" (by simp), hbody "overview" (by simp),
        hbody "tagline" (by simp), hbody "genres" (by simp), hbody "director" (by simp),
        hbody "actors" (by simp), hbody "vote_average" (by simp)]
    simp only [postWatchlist, hauth, hauth', hdoc]

/-- Witness for C4: alice posts a body that carries bob's subject id as
`userId` and an `_id`. -/
theorem created_document_owner_witness :
    aliceRequest.user = some { sub := "alice", name := "Alice" } ∧
    ∃ (document : JsObject) (k : Except String PostResult → Response),
      postWatchlist "2024-01-01T00:00:00.000Z" aliceRequest = .postDocument document k ∧
      getField (serialize document) "userId" = some (.str "alice") ∧
      getField (serialize document) "_id" = none := by
  obtain ⟨document, k, h, _, hu, _, hi, _⟩ :=
    created_document_owner "2024-01-01T00:00:00.000Z" aliceRequest
      { sub := "alice", name := "Alice" } rfl
  exact ⟨rfl, document, k, h, hu, hi⟩

theorem hasId_toJson (d : StoredDoc) (id : String) :
    hasId id d.toJson = (d.id == id) := by
  simp [hasId, StoredDoc.toJson, Json.getProp, getField, List.lookup]

theorem getProp_toJson_of_ne (d : StoredDoc) (key : String)
    (h1 : (key == "_id") = false) (h2 : (key == "_rev") = false) :
    d.toJson.getProp key = getField d.fields key := by
  simp [StoredDoc.toJson, Json.getProp, getField, List.lookup, h1, h2]

/-- C5 (counterexample): alice posts the body that `express.json()` makes
of the JSON text with `"vote_average": 1e400`, whose `vote_average` is
`Infinity`, to the store that holds bob's entry, and then lists. The POST
succeeds with the fresh id `doc2`, the list holds exactly one entry with that
id, and its `vote_average` is `null`: the entry does not carry the body's
`vote_average`. -/
theorem infinite_vote_average_not_carried :
    infinityRequest.isAuthenticated = true ∧
    (∀ d ∈ bobStore, d.id ≠ envUp.newId) ∧
    (run envUp (postWatchlist "2024-01-01T00:00:00.000Z" infinityRequest) bobStore).1 =
      Response.json (.obj [("success", .bool true), ("id", .str "doc2")]) ∧
    ∃ (docs : List Json) (entry : Json),
      (run envUp (getWatchlist infinityRequest)
        (run envUp (postWatchlist "2024-01-01T00:00:00.000Z" infinityRequest) bobStore).2).1 =
        Response.json (.arr docs) ∧
      docs.filter (hasId envUp.newId) = [entry] ∧
      infinityRequest.body.get "vote_average" = some (.infinity false) ∧
      entry.getProp "vote_average" = some .null ∧
      (entry.getProp "vote_average").map JsValue.ofJson
        ≠ infinityRequest.body.get "vote_average" := by
  have hfresh : ∀ d ∈ bobStore, d.id ≠ envUp.newId := by
    intro d hd
    simp only [bobStore, List.mem_singleton] at hd
    subst hd
    decide
  refine ⟨rfl, hfresh, rfl,
    [.obj [("_id", .str "doc2"), ("_rev", .str "1-new"), ("userId", .str "alice"),
           ("movieId", .num 603 0), ("title", .str "The Matrix"),
           ("vote_average", .null), ("addedAt", .str "2024-01-01T00:00:00.000Z")]],
    .obj [("_id", .str "doc2"), ("_rev", .str "1-new"), ("userId", .str "alice"),
          ("movieId", .num 603 0), ("title", .str "The Matrix"),
          ("vote_average", .null), ("addedAt", .str "2024-01-01T00:00:00.000Z")],
    rfl, rfl, rfl, rfl, ?_⟩
  intro h
  have h' : some JsValue.null = some (JsValue.infinity false) := h
  injection h' with h'
  cases h'

/-- C5 (amended): over a store that assigns a fresh document id, a successful
POST /api/watchlist by A responds `success: true` with the new id, and a GET
/api/watchlist by A that follows returns a list in which exactly one entry
has that id; for the body's `id` (as `movieId`) and its title, poster_path,
release_date, overview, tagline, genres, director, actors and vote_average,
this entry carries what `JSON.stringify` writes for the value the parsed body
holds (nothing when the body has no such property): the value itself
whenever it holds neither an infinite number nor the negative zero. -/
theorem create_then_list (env env' : StoreEnv) (s : Store) (now : String)
    (req req' : Request) (user : User)
    (hauth : req.user = some user) (hauth' : req'.user = some user)
    (hup : env.reachable = true) (hup' : env'.reachable = true)
    (hfresh : ∀ d ∈ s, d.id ≠ env.newId) :
    (run env (postWatchlist now req) s).1 =
      Response.json (.obj [("success", .bool true), ("id", .str env.newId)]) ∧
    ∃ (docs : List Json) (entry : Json),
      (run env' (getWatchlist req') (run env (postWatchlist now req) s).2).1 =
        Response.json (.arr docs) ∧
      docs.filter (hasId env.newId) = [entry] ∧
      (∀ p ∈ [("movieId", "id"), ("title", "title"), ("poster_path", "poster_path"),
                ("release_date", "release_date"), ("overview", "overview"),
                ("tagline", "tagline"), ("genres", "genres"), ("director", "director"),
                ("actors", "actors"), ("vote_average", "vote_average")],
        entry.getProp p.1 = (req.body.get p.2).map JsValue.toJson) ∧
      (∀ p ∈ [("movieId", "id"), ("title", "title"), ("poster_path", "poster_path"),
                ("release_date", "release_date"), ("overview", "overview"),
                ("tagline", "tagline"), ("genres", "genres"), ("director", "director"),
                ("actors", "actors"), ("vote_average", "vote_average")],
        ∀ j : Json, req.body.get p.2 = some (JsValue.ofJson j) →
          entry.getProp p.1 = some j) := by
  obtain ⟨nd, hnd⟩ : ∃ nd : StoredDoc,
      nd = StoredDoc.mk env.newId env.newRev (serialize (movieDoc user req.body now)) :=
    ⟨_, rfl⟩
  have hid : nd.id = env.newId := by rw [hnd]
  have hfields : nd.fields = serialize (movieDoc user req.body now) := by rw [hnd]
  have hpost : run env (postWatchlist now req) s =
      (Response.json (.obj [("success", .bool true), ("id", .str env.newId)]), s ++ [nd]) := by
    simp [postWatchlist, hauth, run, Store.postDocument, hup, hnd]
  obtain ⟨howner, _, _, _⟩ := movieDoc_reserved_fields user req.body now
  obtain ⟨f1, f2, f3, f4, f5, f6, f7, f8, f9, f10⟩ := movieDoc_movie_fields user req.body now
  rw [← hfields] at howner f1 f2 f3 f4 f5 f6 f7 f8 f9 f10
  have hnew : nd.ownedBy user.sub = true := (ownedBy_iff _ _).2 howner
  have hold : ∀ e ∈ (s.filter (fun d => d.ownedBy user.sub)).map StoredDoc.toJson,
      ¬ hasId env.newId e = true := by
    intro e he
    simp only [List.mem_map, List.mem_filter] at he
    obtain ⟨d, ⟨hd, _⟩, rfl⟩ := he
    rw [hasId_toJson]
    simpa using hfresh d hd
  have hcarry : ∀ p ∈ [("movieId", "id"), ("title", "title"), ("poster_path", "poster_path"),
                ("release_date", "release_date"), ("overview", "overview"),
                ("tagline", "tagline"), ("genres", "genres"), ("director", "director"),
                ("actors", "actors"), ("vote_average", "vote_average")],
      nd.toJson.getProp p.1 = (req.body.get p.2).map JsValue.toJson := by
    intro p hp
    simp only [List.mem_cons, List.mem_singleton, List.not_mem_nil, or_false] at hp
    rcases hp with h | h | h | h | h | h | h | h | h | h <;> subst h <;>
      rw [getProp_toJson_of_ne _ _ (by decide) (by decide)] <;> assumption
  refine ⟨by rw [hpost],
    (s.filter (fun d => d.ownedBy user.sub)).map StoredDoc.toJson ++ [nd.toJson],
    nd.toJson, ?_, ?_, hcarry, ?_⟩
  · rw [hpost]
    simp [getWatchlist, hauth', run, Store.postFind, hup', List.filter_append, hnew]
  · rw [List.filter_append, List.filter_eq_nil_iff.2 hold]
    simp [hasId_toJson, hid]
  · intro p hp j hj
    rw [hcarry p hp, hj, Option.map_some', toJson_ofJson]

/-- Witness for C5: alice posts a movie to a store that holds bob's entry
`doc1` and is assigned the id `doc2`, then lists; the entry carries the
body's title. -/
theorem create_then_list_witness :
    aliceRequest.user = some { sub := "alice", name := "Alice" } ∧
    envUp.reachable = true ∧
    (∀ d ∈ bobStore, d.id ≠ envUp.newId) ∧
    aliceRequest.body.get "title" = some (.str "The Matrix") ∧
    ∃ (docs : List Json) (entry : Json),
      (run envUp (getWatchlist aliceRequest)
        (run envUp (postWatchlist "2024-01-01T00:00:00.000Z" aliceRequest) bobStore).2).1 =
        Response.json (.arr docs) ∧
      docs.filter (hasId envUp.newId) = [entry] ∧
      entry.getProp "movieId" = some (.num 603 0) ∧
      entry.getProp "title" = some (.str "The Matrix") := by
  have hfresh : ∀ d ∈ bobStore, d.id ≠ envUp.newId := by
    intro d hd
    simp only [bobStore, List.mem_singleton] at hd
    subst hd
    decide
  obtain ⟨_, docs, entry, h1, h2, _, h3⟩ :=
    create_then_list envUp envUp bobStore "2024-01-01T00:00:00.000Z" aliceRequest aliceRequest
      { sub := "alice", name := "Alice" } rfl rfl rfl rfl hfresh
  exact ⟨rfl, rfl, hfresh, rfl, docs, entry, h1, h2,
    h3 ("movieId", "id") (by simp) (.num 603 0) rfl,
    h3 ("title", "title") (by simp) (.str "The Matrix") rfl⟩

/-! ## Watchlist routes: deletion -/

/-- C6: for every authenticated DELETE /api/watchlist/:docId/:revId, if
`docId` names no stored document, or `revId` is not the current revision
token of the stored document `docId`, then the store is unchanged and the
response is status 500 with an `error` body and no `success` property; and
whenever the response carries `success: true`, the store's delete
succeeded. -/
theorem stale_delete_fails (env : StoreEnv) (s : Store) (req : Request) (user : User)
    (hauth : req.user = some user) :
    ((s.find? (fun d => d.id == req.docId) = none ∨
        ∃ d, s.find? (fun d => d.id == req.docId) = some d ∧ d.rev ≠ req.revId) →
      (run env (deleteWatchlist req) s).2 = s ∧
      (run env (deleteWatchlist req) s).1.status = 500 ∧
      (run env (deleteWatchlist req) s).1.body.getProp "error"
        = some (.str "Failed to delete") ∧
      (run env (deleteWatchlist req) s).1.body.getProp "success" = none) ∧
    ((run env (deleteWatchlist req) s).1.body.getProp "success" = some (.bool true) →
      ∃ s', Store.deleteDocument env s req.docId req.revId = .ok s' ∧
        (run env (deleteWatchlist req) s).2 = s') := by
  constructor
  · intro hstale
    have herr : ∃ e, Store.deleteDocument env s req.docId req.revId = .error e := by
      unfold Store.deleteDocument
      cases hr : env.reachable with
      | false => exact ⟨_, rfl⟩
      | true =>
        rcases hstale with hnone | ⟨d, hd, hrev⟩
        · simp only [hnone, if_true]; exact ⟨_, rfl⟩
        · have hne : (d.rev == req.revId) = false := by simpa using hrev
          simp only [hd, hne, if_true]; exact ⟨_, rfl⟩
    obtain ⟨e, he⟩ := herr
    have hrun : run env (deleteWatchlist req) s = (Response.fail 500 "Failed to delete", s) := by
      simp only [deleteWatchlist, hauth, run, he]
    rw [hrun]
    exact ⟨rfl, rfl, rfl, rfl⟩
  · intro hsucc
    cases hdel : Store.deleteDocument env s req.docId req.revId with
    | ok s' =>
      refine ⟨s', rfl, ?_⟩
      simp only [deleteWatchlist, hauth, run, hdel]
    | error e =>
      simp only [deleteWatchlist, hauth, run, hdel] at hsucc
      simp [Response.fail, Json.getProp, getField, List.lookup] at hsucc

/-- Witness for C6: bob sends DELETE for his document with a revision token
that is not the current one. -/
theorem stale_delete_fails_witness :
    staleRequest.user = some { sub := "bob", name := "Bob" } ∧
    (∃ d, bobStore.find? (fun d => d.id == staleRequest.docId) = some d ∧
      d.rev ≠ staleRequest.revId) ∧
    (run envUp (deleteWatchlist staleRequest) bobStore).2 = bobStore ∧
    (run envUp (deleteWatchlist staleRequest) bobStore).1.status = 500 := by
  have hstale : ∃ d, bobStore.find? (fun d => d.id == staleRequest.docId) = some d ∧
      d.rev ≠ staleRequest.revId := ⟨_, rfl, by decide⟩
  obtain ⟨h1, h2, _⟩ :=
    (stale_delete_fails envUp bobStore staleRequest { sub := "bob", name := "Bob" } rfl).1
      (Or.inr hstale)
  exact ⟨rfl, hstale, h1, h2⟩

/-! ## Movie route -/

theorem richMovieData_joined_fields (toUpperCase : String → String) (details : Details)
    (credits : Credits) :
    getField (serialize (richMovieData toUpperCase details credits)) "genres"
      = some (.arr ((genres details).map Json.str)) ∧
    getField (serialize (richMovieData toUpperCase details credits)) "director"
      = some (.str (directorName credits)) ∧
    getField (serialize (richMovieData toUpperCase details credits)) "actors"
      = some (.arr ((topCast credits).map Json.str)) := by
  refine ⟨?_, ?_, ?_⟩ <;>
    simp only [richMovieData, getField_serialize_cons_ne, getField_serialize_cons_eq,
      String.reduceBEq, JsValue.toJson, toJsonList_str]

theorem movieRoute_ok (toUpperCase : String → String) (up : Upstream) (movieId : String)
    (c1 c2 : RequestConfig) (details : Details) (credits : Credits)
    (h1 : getSafeTMDBConfig up.apiKey (up.dns 0) ("/movie/" ++ movieId)
      [("language", .str "en-US")] = .ok c1)
    (h2 : getSafeTMDBConfig up.apiKey (up.dns 1) ("/movie/" ++ movieId ++ "/credits")
      [("language", .str "en-US")] = .ok c2)
    (h3 : up.details c1 = .ok details) (h4 : up.credits c2 = .ok credits) :
    (movieRoute toUpperCase up movieId).response =
      Response.json (.obj (serialize (richMovieData toUpperCase details credits))) := by
  simp only [movieRoute, h1, h2, h3, h4]

theorem directorName_of_first (credits : Credits) (before after : List Person) (d : Person)
    (hcrew : credits.crew = before ++ d :: after)
    (hbefore : ∀ p ∈ before, p.job ≠ "Director") (hd : d.job = "Director") :
    directorName credits = d.name := by
  have hfind : credits.crew.find? (fun person => person.job == "Director") = some d := by
    rw [hcrew]
    clear hcrew
    induction before with
    | nil => simp [List.find?, hd]
    | cons p ps ih =>
      have hp : (p.job == "Director") = false := by
        simpa using hbefore p (List.mem_cons_self _ _)
      simp only [List.cons_append, List.find?, hp]
      exact ih (fun q hq => hbefore q (List.mem_cons_of_mem _ hq))
  simp only [directorName, hfind]

theorem directorName_of_none (credits : Credits)
    (h : ∀ p ∈ credits.crew, p.job ≠ "Director") :
    directorName credits = "Unknown" := by
  have hfind : credits.crew.find? (fun person => person.job == "Director") = none := by
    rw [List.find?_eq_none]
    intro p hp
    simpa using h p hp
  simp only [directorName, hfind]

theorem crew_split_first (crew : List Person) (h : ∃ p ∈ crew, p.job = "Director") :
    ∃ before d after, crew = before ++ d :: after ∧
      (∀ p ∈ before, p.job ≠ "Director") ∧ d.job = "Director" := by
  induction crew with
  | nil => obtain ⟨p, hp, _⟩ := h; cases hp
  | cons q qs ih =>
    by_cases hq : q.job = "Director"
    · exact ⟨[], q, qs, rfl, by simp, hq⟩
    · have h' : ∃ p ∈ qs, p.job = "Director" := by
        obtain ⟨p, hp, hj⟩ := h
        rcases List.mem_cons.1 hp with rfl | hp
        · exact absurd hj hq
        · exact ⟨p, hp, hj⟩
      obtain ⟨before, d, after, hsplit, hb, hd⟩ := ih h'
      refine ⟨q :: before, d, after, by rw [hsplit]; rfl, ?_, hd⟩
      intro p hp
      rcases List.mem_cons.1 hp with rfl | hp
      · exact hq
      · exact hb p hp

theorem movieRoute_director (toUpperCase : String → String) (up : Upstream)
    (movieId : String) (c1 c2 : RequestConfig) (details : Details) (credits : Credits)
    (h1 : getSafeTMDBConfig up.apiKey (up.dns 0) ("/movie/" ++ movieId)
      [("language", .str "en-US")] = .ok c1)
    (h2 : getSafeTMDBConfig up.apiKey (up.dns 1) ("/movie/" ++ movieId ++ "/credits")
      [("language", .str "en-US")] = .ok c2)
    (h3 : up.details c1 = .ok details) (h4 : up.credits c2 = .ok credits) :
    (movieRoute toUpperCase up movieId).response.body.getProp "director"
      = some (.str (directorName credits)) := by
  rw [movieRoute_ok toUpperCase up movieId c1 c2 details credits h1 h2 h3 h4]
  exact (richMovieData_joined_fields toUpperCase details credits).2.1

/-- C7 (counterexample): both fetches succeed and the only crew entry is a
director whose name is `Unknown`; the returned director is `Unknown` although
a crew entry has job `Director`, so the equivalence of the claim fails. -/
theorem unknown_named_director :
    (movieRoute String.toUpper (upstreamWith unknownCredits) "27205").response.status = 200 ∧
    (movieRoute String.toUpper (upstreamWith unknownCredits) "27205").response.body.getProp
      "director" = some (.str "Unknown") ∧
    (∃ p ∈ unknownCredits.crew, p.job = "Director") ∧
    ¬ ((movieRoute String.toUpper (upstreamWith unknownCredits) "27205").response.body.getProp
        "director" = some (.str "Unknown") ↔
       ∀ p ∈ unknownCredits.crew, p.job ≠ "Director") := by
  have hdir : (movieRoute String.toUpper (upstreamWith unknownCredits)
      "27205").response.body.getProp "director" = some (.str "Unknown") :=
    movieRoute_director String.toUpper (upstreamWith unknownCredits) "27205"
      detailsConfig creditsConfig inceptionDetails unknownCredits rfl rfl rfl rfl
  have hex : ∃ p ∈ unknownCredits.crew, p.job = "Director" :=
    ⟨{ job := "Director", name := "Unknown" }, by simp [unknownCredits], rfl⟩
  refine ⟨?_, hdir, hex, ?_⟩
  · rw [movieRoute_ok String.toUpper (upstreamWith unknownCredits) "27205"
      detailsConfig creditsConfig inceptionDetails unknownCredits rfl rfl rfl rfl]
    rfl
  · intro hiff
    obtain ⟨p, hp, hj⟩ := hex
    exact hiff.1 hdir p hp hj

/-- C7 (amended): when both fetches succeed, the returned director is
`Unknown` if and only if no entry of `credits.crew` has job `Director`, or
the first entry with job `Director` has the name `Unknown` itself. -/
theorem director_unknown_iff (toUpperCase : String → String) (up : Upstream)
    (movieId : String) (c1 c2 : RequestConfig) (details : Details) (credits : Credits)
    (h1 : getSafeTMDBConfig up.apiKey (up.dns 0) ("/movie/" ++ movieId)
      [("language", .str "en-US")] = .ok c1)
    (h2 : getSafeTMDBConfig up.apiKey (up.dns 1) ("/movie/" ++ movieId ++ "/credits")
      [("language", .str "en-US")] = .ok c2)
    (h3 : up.details c1 = .ok details) (h4 : up.credits c2 = .ok credits) :
    (movieRoute toUpperCase up movieId).response.body.getProp "director"
        = some (.str "Unknown") ↔
      ((∀ p ∈ credits.crew, p.job ≠ "Director") ∨
        ∃ before d after, credits.crew = before ++ d :: after ∧
          (∀ p ∈ before, p.job ≠ "Director") ∧ d.job = "Director" ∧ d.name = "Unknown") := by
  rw [movieRoute_director toUpperCase up movieId c1 c2 details credits h1 h2 h3 h4]
  constructor
  · intro h
    have hname : directorName credits = "Unknown" := by
      injection h with h; injection h
    by_cases hex : ∃ p ∈ credits.crew, p.job = "Director"
    · obtain ⟨before, d, after, hsplit, hb, hd⟩ := crew_split_first credits.crew hex
      right
      refine ⟨before, d, after, hsplit, hb, hd, ?_⟩
      rw [← directorName_of_first credits before after d hsplit hb hd]
      exact hname
    · left
      intro p hp hj
      exact hex ⟨p, hp, hj⟩
  · intro h
    rcases h with hnone | ⟨before, d, after, hsplit, hb, hd, hname⟩
    · rw [directorName_of_none credits hnone]
    · rw [directorName_of_first credits before after d hsplit hb hd, hname]

/-- Witness for C7 (amended): the example world, whose first director is
Christopher Nolan. -/
theorem director_unknown_iff_witness :
    (upstreamWith inceptionCredits).details detailsConfig = .ok inceptionDetails ∧
    (upstreamWith inceptionCredits).credits creditsConfig = .ok inceptionCredits ∧
    ((movieRoute String.toUpper (upstreamWith inceptionCredits) "27205").response.body.getProp
        "director" = some (.str "Unknown") ↔
      ((∀ p ∈ inceptionCredits.crew, p.job ≠ "Director") ∨
        ∃ before d after, inceptionCredits.crew = before ++ d :: after ∧
          (∀ p ∈ before, p.job ≠ "Director") ∧ d.job = "Director" ∧ d.name = "Unknown")) :=
  ⟨rfl, rfl,
    director_unknown_iff String.toUpper (upstreamWith inceptionCredits) "27205"
      detailsConfig creditsConfig inceptionDetails inceptionCredits rfl rfl rfl rfl⟩

/-- C8: when both fetches succeed, for every way of writing the crew list
as `before ++ d :: after` with no entry of job `Director` in `before` and `d`
of job `Director`, the returned director is `d.name`, whatever the entries of
`after` and the other jobs in `before` are; and a crew list that contains an
entry of job `Director` can be written so. -/
theorem director_first_match (toUpperCase : String → String) (up : Upstream)
    (movieId : String) (c1 c2 : RequestConfig) (details : Details) (credits : Credits)
    (h1 : getSafeTMDBConfig up.apiKey (up.dns 0) ("/movie/" ++ movieId)
      [("language", .str "en-US")] = .ok c1)
    (h2 : getSafeTMDBConfig up.apiKey (up.dns 1) ("/movie/" ++ movieId ++ "/credits")
      [("language", .str "en-US")] = .ok c2)
    (h3 : up.details c1 = .ok details) (h4 : up.credits c2 = .ok credits) :
    (∀ before d after, credits.crew = before ++ d :: after →
      (∀ p ∈ before, p.job ≠ "Director") → d.job = "Director" →
      (movieRoute toUpperCase up movieId).response.body.getProp "director"
        = some (.str d.name)) ∧
    ((∃ p ∈ credits.crew, p.job = "Director") →
      ∃ before d after, credits.crew = before ++ d :: after ∧
        (∀ p ∈ before, p.job ≠ "Director") ∧ d.job = "Director" ∧
        (movieRoute toUpperCase up movieId).response.body.getProp "director"
          = some (.str d.name)) := by
  have hfirst : ∀ before d after, credits.crew = before ++ d :: after →
      (∀ p ∈ before, p.job ≠ "Director") → d.job = "Director" →
      (movieRoute toUpperCase up movieId).response.body.getProp "director"
        = some (.str d.name) := by
    intro before d after hsplit hb hd
    rw [movieRoute_director toUpperCase up movieId c1 c2 details credits h1 h2 h3 h4,
      directorName_of_first credits before after d hsplit hb hd]
  refine ⟨hfirst, ?_⟩
  intro hex
  obtain ⟨before, d, after, hsplit, hb, hd⟩ := crew_split_first credits.crew hex
  exact ⟨before, d, after, hsplit, hb, hd, hfirst before d after hsplit hb hd⟩

/-- Witness for C8: the example crew is a producer followed by two
directors; the first of them is returned. -/
theorem director_first_match_witness :
    (upstreamWith inceptionCredits).details detailsConfig = .ok inceptionDetails ∧
    (upstreamWith inceptionCredits).credits creditsConfig = .ok inceptionCredits ∧
    (movieRoute String.toUpper (upstreamWith inceptionCredits) "27205").response.body.getProp
      "director" = some (.str "Christopher Nolan") :=
  ⟨rfl, rfl,
    (director_first_match String.toUpper (upstreamWith inceptionCredits) "27205"
      detailsConfig creditsConfig inceptionDetails inceptionCredits rfl rfl rfl rfl).1
      [{ job := "Producer", name := "Emma Thomas" }]
      { job := "Director", name := "Christopher Nolan" }
      [{ job := "Director", name := "Second Unit" }]
      rfl (by intro p hp; simp only [List.mem_singleton] at hp; subst hp; decide) rfl⟩

/-- C9: when both fetches succeed, the returned actors list is the list of
the names of the first five cast entries in cast order: its length is
`min 5 (length cast)`, at most 5, equal to the length of the cast list when
that has fewer than 5 entries, and its i-th element is the name of the i-th
cast entry. -/
theorem actors_top_five (toUpperCase : String → String) (up : Upstream)
    (movieId : String) (c1 c2 : RequestConfig) (details : Details) (credits : Credits)
    (h1 : getSafeTMDBConfig up.apiKey (up.dns 0) ("/movie/" ++ movieId)
      [("language", .str "en-US")] = .ok c1)
    (h2 : getSafeTMDBConfig up.apiKey (up.dns 1) ("/movie/" ++ movieId ++ "/credits")
      [("language", .str "en-US")] = .ok c2)
    (h3 : up.details c1 = .ok details) (h4 : up.credits c2 = .ok credits) :
    ∃ names : List String,
      (movieRoute toUpperCase up movieId).response.body.getProp "actors"
        = some (.arr (names.map Json.str)) ∧
      names = (credits.cast.map (fun actor => actor.name)).take 5 ∧
      names.length = min 5 credits.cast.length ∧
      names.length ≤ 5 ∧
      (credits.cast.length < 5 → names.length = credits.cast.length) ∧
      ∀ i, i < names.length →
        names[i]? = (credits.cast[i]?).map (fun actor => actor.name) := by
  refine ⟨topCast credits, ?_, ?_, ?_, ?_, ?_, ?_⟩
  · rw [movieRoute_ok toUpperCase up movieId c1 c2 details credits h1 h2 h3 h4]
    exact (richMovieData_joined_fields toUpperCase details credits).2.2
  · simp [topCast, List.map_take]
  · simp [topCast, List.length_take]
  · simp only [topCast, List.length_map, List.length_take]
    exact Nat.min_le_left _ _
  · intro h
    simp only [topCast, List.length_map, List.length_take]
    omega
  · intro i hi
    simp only [topCast, List.length_map, List.length_take] at hi
    have hi5 : i < 5 := by omega
    simp [topCast, List.getElem?_take, hi5]

/-- Witness for C9: the example cast has six entries; the first five names
are returned. -/
theorem actors_top_five_witness :
    (upstreamWith inceptionCredits).details detailsConfig = .ok inceptionDetails ∧
    (upstreamWith inceptionCredits).credits creditsConfig = .ok inceptionCredits ∧
    ∃ names : List String,
      (movieRoute String.toUpper (upstreamWith inceptionCredits) "27205").response.body.getProp
        "actors" = some (.arr (names.map Json.str)) ∧
      names = ["Leonardo DiCaprio", "Joseph Gordon-Levitt", "Ken Watanabe", "Tom Hardy",
               "Elliot Page"] := by
  obtain ⟨names, h, hnames, _⟩ :=
    actors_top_five String.toUpper (upstreamWith inceptionCredits) "27205"
      detailsConfig creditsConfig inceptionDetails inceptionCredits rfl rfl rfl rfl
  exact ⟨rfl, rfl, names, h, hnames⟩

theorem fail_no_record_fields (msg : String) :
    ∀ key ∈ ["id", "title", "poster_path", "backdrop_path", "release_date", "tagline",
             "overview", "genres", "director", "actors", "vote_average"],
      (Response.fail 500 msg).body.getProp key = none := by
  intro key hkey
  simp only [List.mem_cons, List.mem_singleton, List.not_mem_nil, or_false] at hkey
  rcases hkey with h | h | h | h | h | h | h | h | h | h | h <;> subst h <;> rfl

/-- C10: for GET /api/movie/:id, if the configuration step of either request
fails, or the details fetch fails, or the credits fetch fails, the response
is status 500 with the error body and none of the Movie Record properties;
the status is 200 or 500; and when it is 200 both configuration steps and
both fetches succeeded, the body is the joined record, and its `genres`,
`director` and `actors` are present. -/
theorem movie_all_or_nothing (toUpperCase : String → String) (up : Upstream)
    (movieId : String) :
    (((∃ e, getSafeTMDBConfig up.apiKey (up.dns 0) ("/movie/" ++ movieId)
          [("language", .str "en-US")] = .error e) ∨
      (∃ e, getSafeTMDBConfig up.apiKey (up.dns 1) ("/movie/" ++ movieId ++ "/credits")
          [("language", .str "en-US")] = .error e) ∨
      (∃ c1 e, getSafeTMDBConfig up.apiKey (up.dns 0) ("/movie/" ++ movieId)
          [("language", .str "en-US")] = .ok c1 ∧ up.details c1 = .error e) ∨
      (∃ c2 e, getSafeTMDBConfig up.apiKey (up.dns 1) ("/movie/" ++ movieId ++ "/credits")
          [("language", .str "en-US")] = .ok c2 ∧ up.credits c2 = .error e)) →
      (movieRoute toUpperCase up movieId).response.status = 500 ∧
      (movieRoute toUpperCase up movieId).response.body
        = .obj [("error", .str "Failed to get movie details")] ∧
      ∀ key ∈ ["id", "title", "poster_path", "backdrop_path", "release_date", "tagline",
               "overview", "genres", "director", "actors", "vote_average"],
        (movieRoute toUpperCase up movieId).response.body.getProp key = none) ∧
    ((movieRoute toUpperCase up movieId).response.status = 200 ∨
      (movieRoute toUpperCase up movieId).response.status = 500) ∧
    ((movieRoute toUpperCase up movieId).response.status = 200 →
      ∃ c1 c2 details credits,
        getSafeTMDBConfig up.apiKey (up.dns 0) ("/movie/" ++ movieId)
          [("language", .str "en-US")] = .ok c1 ∧
        getSafeTMDBConfig up.apiKey (up.dns 1) ("/movie/" ++ movieId ++ "/credits")
          [("language", .str "en-US")] = .ok c2 ∧
        up.details c1 = .ok details ∧ up.credits c2 = .ok credits ∧
        (movieRoute toUpperCase up movieId).response.body
          = .obj (serialize (richMovieData toUpperCase details credits)) ∧
        (movieRoute toUpperCase up movieId).response.body.getProp "genres"
          = some (.arr ((details.genres.map (fun g => g.name)).map Json.str)) ∧
        (∃ name, (movieRoute toUpperCase up movieId).response.body.getProp "director"
          = some (.str name)) ∧
        (∃ names : List String,
          (movieRoute toUpperCase up movieId).response.body.getProp "actors"
            = some (.arr (names.map Json.str)))) := by
  have hfail : (movieRoute toUpperCase up movieId).response
        = Response.fail 500 "Failed to get movie details" →
      (movieRoute toUpperCase up movieId).response.status = 500 ∧
      (movieRoute toUpperCase up movieId).response.body
        = .obj [("error", .str "Failed to get movie details")] ∧
      ∀ key ∈ ["id", "title", "poster_path", "backdrop_path", "release_date", "tagline",
               "overview", "genres", "director", "actors", "vote_average"],
        (movieRoute toUpperCase up movieId).response.body.getProp key = none := by
    intro h
    rw [h]
    exact ⟨rfl, rfl, fail_no_record_fields _⟩
  cases hc1 : getSafeTMDBConfig up.apiKey (up.dns 0) ("/movie/" ++ movieId)
          [("language", .str "en-US")] with
  | error e1 =>
    have hr : (movieRoute toUpperCase up movieId).response
        = Response.fail 500 "Failed to get movie details" := by
      simp only [movieRoute, hc1]
    refine ⟨fun _ => hfail hr, Or.inr (by rw [hr]; rfl), ?_⟩
    intro h200
    rw [hr] at h200
    exact absurd h200 (by decide)
  | ok c1 =>
    cases hc2 : getSafeTMDBConfig up.apiKey (up.dns 1) ("/movie/" ++ movieId ++ "/credits")
          [("language", .str "en-US")] with
    | error e2 =>
      have hr : (movieRoute toUpperCase up movieId).response
          = Response.fail 500 "Failed to get movie details" := by
        simp only [movieRoute, hc1, hc2]
      refine ⟨fun _ => hfail hr, Or.inr (by rw [hr]; rfl), ?_⟩
      intro h200
      rw [hr] at h200
      exact absurd h200 (by decide)
    | ok c2 =>
      cases hd : up.details c1 with
      | error e3 =>
        have hr : (movieRoute toUpperCase up movieId).response
            = Response.fail 500 "Failed to get movie details" := by
          simp only [movieRoute, hc1, hc2, hd]
        refine ⟨fun _ => hfail hr, Or.inr (by rw [hr]; rfl), ?_⟩
        intro h200
        rw [hr] at h200
        exact absurd h200 (by decide)
      | ok details =>
        cases hcr : up.credits c2 with
        | error e4 =>
          have hr : (movieRoute toUpperCase up movieId).response
              = Response.fail 500 "Failed to get movie details" := by
            simp only [movieRoute, hc1, hc2, hd, hcr]
          refine ⟨fun _ => hfail hr, Or.inr (by rw [hr]; rfl), ?_⟩
          intro h200
          rw [hr] at h200
          exact absurd h200 (by decide)
        | ok credits =>
          have hr := movieRoute_ok toUpperCase up movieId c1 c2 details credits hc1 hc2 hd hcr
          obtain ⟨hg, hdir, hact⟩ := richMovieData_joined_fields toUpperCase details credits
          refine ⟨?_, Or.inl (by rw [hr]; rfl), ?_⟩
          · intro hf
            rcases hf with ⟨e, he⟩ | ⟨e, he⟩ | ⟨c, e, hc, he⟩ | ⟨c, e, hc, he⟩
            · cases he
            · cases he
            · cases hc; rw [hd] at he; cases he
            · cases hc; rw [hcr] at he; cases he
          · intro _
            refine ⟨c1, c2, details, credits, rfl, rfl, hd, hcr, ?_, ?_, ?_, ?_⟩
            · rw [hr]; rfl
            · rw [hr]; exact hg
            · exact ⟨_, by rw [hr]; exact hdir⟩
            · exact ⟨_, by rw [hr]; exact hact⟩

/-- Witness for C10: the credits fetch fails while the details fetch
succeeds; the response is 500 and carries no `title`. -/
theorem movie_all_or_nothing_witness :
    upstreamCreditsDown.details detailsConfig = .ok inceptionDetails ∧
    upstreamCreditsDown.credits creditsConfig = .error "timeout" ∧
    (movieRoute String.toUpper upstreamCreditsDown "27205").response.status = 500 ∧
    (movieRoute String.toUpper upstreamCreditsDown "27205").response.body.getProp "title"
      = none :=
  have h := (movie_all_or_nothing String.toUpper upstreamCreditsDown "27205").1
    (Or.inr (Or.inr (Or.inr ⟨creditsConfig, "timeout", rfl, rfl⟩)))
  ⟨rfl, rfl, h.1, h.2.2 "title" (by simp)⟩

/-! ## Movie route: tagline -/

theorem richMovieData_tagline (toUpperCase : String → String) (details : Details)
    (credits : Credits) :
    getField (serialize (richMovieData toUpperCase details credits)) "tagline"
      = some (.str (tagline toUpperCase details)) := by
  simp only [richMovieData, getField_serialize_cons_ne, getField_serialize_cons_eq,
    String.reduceBEq, JsValue.toJson]

/-- C11: when both fetches succeed, the returned tagline is the upper-cased
form of `details.tagline` when that is a non-empty string, and the empty
string when it is absent, null or empty; in every case the returned tagline
is a string, never null or undefined. -/
theorem tagline_upper_or_empty (toUpperCase : String → String) (up : Upstream)
    (movieId : String) (c1 c2 : RequestConfig) (details : Details) (credits : Credits)
    (h1 : getSafeTMDBConfig up.apiKey (up.dns 0) ("/movie/" ++ movieId)
      [("language", .str "en-US")] = .ok c1)
    (h2 : getSafeTMDBConfig up.apiKey (up.dns 1) ("/movie/" ++ movieId ++ "/credits")
      [("language", .str "en-US")] = .ok c2)
    (h3 : up.details c1 = .ok details) (h4 : up.credits c2 = .ok credits) :
    (∀ t, details.tagline = some t → t ≠ "" →
      (movieRoute toUpperCase up movieId).response.body.getProp "tagline"
        = some (.str (toUpperCase t))) ∧
    (details.tagline = none ∨ details.tagline = some "" →
      (movieRoute toUpperCase up movieId).response.body.getProp "tagline"
        = some (.str "")) ∧
    ∃ text : String,
      (movieRoute toUpperCase up movieId).response.body.getProp "tagline"
        = some (.str text) := by
  have hr : (movieRoute toUpperCase up movieId).response.body.getProp "tagline"
      = some (.str (tagline toUpperCase details)) := by
    rw [movieRoute_ok toUpperCase up movieId c1 c2 details credits h1 h2 h3 h4]
    exact richMovieData_tagline toUpperCase details credits
  refine ⟨?_, ?_, ⟨_, hr⟩⟩
  · intro t ht hne
    rw [hr]
    simp only [tagline, ht, if_neg hne]
  · intro h
    rw [hr]
    rcases h with h | h
    · simp only [tagline, h]
    · simp only [tagline, h, if_true]

/-- Witness for C11: the example details reply has a tagline, which is
returned upper-cased; the reply with an empty tagline gives the empty
string. -/
theorem tagline_upper_or_empty_witness :
    (upstreamWith inceptionCredits).details detailsConfig = .ok inceptionDetails ∧
    (upstreamWith inceptionCredits).credits creditsConfig = .ok inceptionCredits ∧
    inceptionDetails.tagline = some "Your mind is the scene of the crime." ∧
    (movieRoute String.toUpper (upstreamWith inceptionCredits) "27205").response.body.getProp
      "tagline" = some (.str (String.toUpper "Your mind is the scene of the crime.")) ∧
    emptyTaglineDetails.tagline = some "" ∧
    (movieRoute String.toUpper upstreamEmptyTagline "27205").response.body.getProp
      "tagline" = some (.str "") :=
  ⟨rfl, rfl, rfl,
    (tagline_upper_or_empty String.toUpper (upstreamWith inceptionCredits) "27205"
      detailsConfig creditsConfig inceptionDetails inceptionCredits rfl rfl rfl rfl).1
      "Your mind is the scene of the crime." rfl (by decide),
    rfl,
    (tagline_upper_or_empty String.toUpper upstreamEmptyTagline "27205"
      detailsConfig creditsConfig emptyTaglineDetails inceptionCredits rfl rfl rfl rfl).2.1
      (Or.inr rfl)⟩

/-! ## Search route -/

/-- C12: for GET /api/search, when `q` is absent or empty the response is
status 400 and no outbound request (DNS or catalog) is made; when `q` is a
non-empty string the response is either status 200 with the upstream results
list unchanged, after a successful configuration step and catalog fetch, or
status 500 with the error body, and its status is never 400. -/
theorem search_requires_query (up : Upstream) (q : Option String) :
    ((q = none ∨ q = some "") →
      (searchRoute up q).response.status = 400 ∧
      (searchRoute up q).response.body = .obj [("error", .str "Query required")] ∧
      (searchRoute up q).requests = []) ∧
    (∀ query, q = some query → query ≠ "" →
      (((searchRoute up q).response.status = 200 ∧
          ∃ config data,
            getSafeTMDBConfig up.apiKey (up.dns 0) "/search/movie"
            [("query", .str query), ("include_adult", .bool false),
             ("language", .str "en-US"), ("page", .num 1 0)] = .ok config ∧
            up.search config = .ok data ∧
            (searchRoute up q).response.body = .arr data.results) ∨
        ((searchRoute up q).response.status = 500 ∧
          (searchRoute up q).response.body
            = .obj [("error", .str "Failed to fetch movies")])) ∧
      (searchRoute up q).response.status ≠ 400) := by
  constructor
  · intro h
    rcases h with h | h <;> subst h <;> exact ⟨rfl, rfl, rfl⟩
  · intro query hq hne
    subst hq
    cases hc : getSafeTMDBConfig up.apiKey (up.dns 0) "/search/movie"
            [("query", .str query), ("include_adult", .bool false),
             ("language", .str "en-US"), ("page", .num 1 0)] with
    | error e =>
      have hr : (searchRoute up (some query)).response
          = Response.fail 500 "Failed to fetch movies" := by
        simp only [searchRoute, if_neg hne, hc]
      rw [hr]
      exact ⟨Or.inr ⟨rfl, rfl⟩, by decide⟩
    | ok config =>
      cases hs : up.search config with
      | error e =>
        have hr : (searchRoute up (some query)).response
            = Response.fail 500 "Failed to fetch movies" := by
          simp only [searchRoute, if_neg hne, hc, hs]
        rw [hr]
        exact ⟨Or.inr ⟨rfl, rfl⟩, by decide⟩
      | ok data =>
        have hr : (searchRoute up (some query)).response
            = Response.json (.arr data.results) := by
          simp only [searchRoute, if_neg hne, hc, hs]
        rw [hr]
        refine ⟨Or.inl ⟨rfl, config, data, rfl, hs, rfl⟩, ?_⟩
        show (200 : Nat) ≠ 400
        decide

/-- Witness for C12: without `q` the example world is never contacted and the
answer is 400; with `q=Fight` the one result of the catalog is returned
unchanged. -/
theorem search_requires_query_witness :
    (searchRoute upstreamEmptyTagline none).response.status = 400 ∧
    (searchRoute upstreamEmptyTagline none).requests = [] ∧
    (searchRoute upstreamEmptyTagline (some "Fight")).response.status ≠ 400 ∧
    (searchRoute upstreamEmptyTagline (some "Fight")).response.body
      = .arr [.obj [("id", .num 550 0), ("title", .str "Fight Club")]] :=
  have h := (search_requires_query upstreamEmptyTagline none).1 (Or.inl rfl)
  have h' := (search_requires_query upstreamEmptyTagline (some "Fight")).2
    "Fight" rfl (by decide)
  ⟨h.1, h.2.2, h'.2, rfl⟩

end MoviesWatchlist
